import Mathlib

/-!
Verification of the truescope-data scraping pipeline against its
natural-language specification.

The Python sources under `src/scrapers/` are shallowly embedded here:
pure helpers become Lean functions, the stateful crawl loops become
explicit state-passing step functions, Python exceptions become
`Except`/`Option` results, and Python `float` scores are modelled by `ℚ`
(the score arithmetic is exact decimal arithmetic: counts divided by list
lengths plus literal boosts `0.3`/`0.2`).

Strings are modelled by Lean `String`; Python string operations (`lower`,
`strip`, `split`, `startswith`, substring `in`) are modelled by structurally
recursive functions over `List Char` so that concrete instances reduce in
the kernel (the strings in play are ASCII).
-/

namespace Truescope

/-! ## Generic string helpers (models of Python str operations) -/

/-- Model of Python `needle.isPrefixOf hay` on character lists: `needle`
occurs at the start of `hay`. -/
def charsPre : List Char → List Char → Bool
  | [], _ => true
  | _ :: _, [] => false
  | a :: as, b :: bs => a = b && charsPre as bs

/-- Model of Python substring containment `needle in hay` (`str.__contains__`):
`needle` occurs contiguously somewhere in `hay`. -/
def isSubChars (needle : List Char) : List Char → Bool
  | [] => needle.isEmpty
  | c :: rest => charsPre needle (c :: rest) || isSubChars needle rest

/-- Model of Python `needle in hay` on strings. -/
def strHasSub (hay needle : String) : Bool :=
  isSubChars needle.data hay.data

/-- Model of Python `s.startswith(pre)`. -/
def pyStartsWith (s pre : String) : Bool :=
  charsPre pre.data s.data

/-- Model of Python `s.removeprefix(pre)` (PEP 616): drop `pre` from the
front of `s` when it is literally (case-sensitively) a prefix, otherwise
return `s` unchanged. -/
def pyRemovePre (s pre : String) : String :=
  if pyStartsWith s pre then ⟨s.data.drop pre.data.length⟩ else s

/-- Model of Python `s.lower()` (the strings in play are ASCII). -/
def pyLower (s : String) : String :=
  ⟨s.data.map Char.toLower⟩

/-- ASCII whitespace, the characters Python `str.strip()` removes from the
strings this pipeline sees. -/
def isPySpace (c : Char) : Bool :=
  c = ' ' || c = '\t' || c = '\n' || c = '\r' || c = '\x0b' || c = '\x0c'

/-- Model of Python `s.strip()`: remove whitespace from both ends. -/
def pyStrip (s : String) : String :=
  ⟨((s.data.dropWhile isPySpace).reverse.dropWhile isPySpace).reverse⟩

/-- Characters before the first occurrence of `sep` (the whole list when
`sep` does not occur). -/
def takeUntilSub (sep : List Char) : List Char → List Char
  | [] => []
  | c :: rest => if charsPre sep (c :: rest) then [] else c :: takeUntilSub sep rest

/-- Characters after the first occurrence of `sep`, when `sep` occurs. -/
def afterFirstSub (sep : List Char) : List Char → Option (List Char)
  | [] => if sep.isEmpty then some [] else none
  | c :: rest =>
    if charsPre sep (c :: rest) then some ((c :: rest).drop sep.length)
    else afterFirstSub sep rest

/-- Splitting worker for `pySplit`, structurally recursive on a fuel that
starts at the list length (each step consumes at least one character, so
the fuel is never exhausted while characters remain). -/
def splitCharsF (sep : List Char) : Nat → List Char → List Char → List (List Char)
  | _, [], acc => [acc.reverse]
  | 0, l, acc => [acc.reverse ++ l]
  | fuel + 1, c :: rest, acc =>
    if charsPre sep (c :: rest) && !sep.isEmpty then
      acc.reverse :: splitCharsF sep fuel ((c :: rest).drop sep.length) []
    else
      splitCharsF sep fuel rest (c :: acc)

/-- Model of Python `s.split(sep)` for a non-empty separator. -/
def pySplit (s sep : String) : List String :=
  (splitCharsF sep.data s.data.length s.data []).map (fun l => ⟨l⟩)

/-- Model of `urllib.parse.urlparse(url).path` for the URLs this pipeline
handles: drop the `scheme://netloc` part (everything up to the first `/`
after the first `://`), and cut off any query (`?…`) and fragment (`#…`).
A URL without `://` is treated as already being a path. -/
def urlPathOf (url : String) : String :=
  let noExtras := takeUntilSub ['?'] (takeUntilSub ['#'] url.data)
  match afterFirstSub [':', '/', '/'] noExtras with
  | some rest => ⟨rest.dropWhile (fun c => !(c = '/' : Bool))⟩
  | none => ⟨noExtras⟩

/-! ## Kernel-reducible rational arithmetic

The Batteries definitions `Rat.add` and `Rat.inv` are `@[irreducible]`,
which blocks `decide` on concrete score computations.  The embedding
therefore uses `mkRat`/`Rat.divInt`-based operations and proves once that
they agree with the ordinary `+` and `/` on `ℚ`. -/

/-- Kernel-reducible addition on `ℚ`; agrees with `+` by `qadd_eq_add`. -/
def qadd (a b : ℚ) : ℚ :=
  Rat.divInt (a.num * b.den + b.num * a.den) (a.den * b.den)

/-! ## Categorizer (src/scrapers/base.py, `BaseScraper`) -/

/-- Embedding of `data_class/category_keywords.py` `CategoryKeywords`:
four keyword lists, static configuration. -/
structure CategoryKeywords where
  politics : List String
  social_issues : List String
  news : List String
  government_entities : List String

/-- Embedding of `BaseScraper._get_keyword_score` (base.py lines 170-175):
count of keywords found as substrings of the lower-cased text, divided by
the list size; `0` for an empty list. -/
def get_keyword_score (text : String) (keywords : List String) : ℚ :=
  let text_lower := pyLower text
  if keywords.isEmpty then 0
  else mkRat (keywords.countP (fun k => strHasSub text_lower k)) keywords.length

/-- The `url_categories` boosting table of `categorize_article`
(base.py lines 186-190), verbatim: note the `"social-issues"` key. -/
def url_categories : List (String × List String) :=
  [("politics", ["/politics/", "/government/", "/elections/"]),
   ("social-issues", ["/nation/", "/metro-manila/", "/regions/"]),
   ("government", ["/agencies/", "/departments/", "/bureau/", "/office/"])]

/-- The base `scores` dict of `categorize_article` (base.py lines 195-206),
as an association list in Python dict insertion order. -/
def base_scores (kw : CategoryKeywords) (title content : String) : List (String × ℚ) :=
  let text_combined := pyLower (title ++ " " ++ content)
  [("politics", get_keyword_score text_combined kw.politics),
   ("social_issues", get_keyword_score text_combined kw.social_issues),
   ("news", get_keyword_score text_combined kw.news),
   ("government", get_keyword_score text_combined kw.government_entities)]

/-- Update the value at key `k` in an association list (model of Python
`scores[category] += …`, which changes the value of an existing key only). -/
def assocAdd (l : List (String × ℚ)) (k : String) (d : ℚ) : List (String × ℚ) :=
  l.map (fun p => if p.1 = k then (p.1, qadd p.2 d) else p)

/-- Embedding of the URL-boost loop of `categorize_article`
(base.py lines 208-212): for each boosting entry, if any of its patterns is
a substring of the URL path AND the key of the entry is a key of the scores dict
(`if category in scores`), add `0.3` to the score at that key. -/
def apply_url_boosts (url_path : String) (scores : List (String × ℚ)) : List (String × ℚ) :=
  url_categories.foldl
    (fun sc cp =>
      if cp.2.any (fun pat => strHasSub url_path pat) then
        if (sc.map Prod.fst).contains cp.1 then assocAdd sc cp.1 (mkRat 3 10) else sc
      else sc)
    scores

/-- Embedding of the government-entity URL boost of `categorize_article`
(base.py lines 214-219): if any government-entity keyword equals one of the
slash-delimited URL-path segments, add `0.2` to `government`. -/
def apply_entity_boost (kw : CategoryKeywords) (url_path : String)
    (scores : List (String × ℚ)) : List (String × ℚ) :=
  if kw.government_entities.any (fun e => (pySplit url_path "/").contains e) then
    assocAdd scores "government" (mkRat 1 5)
  else scores

/-- The fully boosted scores dict, in the order `categorize_article`
computes it: base keyword-density scores, then URL-path boosts, then the
government-entity boost. -/
def final_scores (kw : CategoryKeywords) (title content url : String) :
    List (String × ℚ) :=
  apply_entity_boost kw (pyLower (urlPathOf url))
    (apply_url_boosts (pyLower (urlPathOf url)) (base_scores kw title content))

/-- Model of Python `max(scores, key=scores.get)` on a non-empty dict in
insertion order: the first key holding the maximal value (later entries
replace the running best only when strictly greater). Returns `"news"` on
an empty list (never hit: the scores dict always has four entries). -/
def argmaxStep (acc : Option (String × ℚ)) (p : String × ℚ) : Option (String × ℚ) :=
  match acc with
  | none => some p
  | some q => if p.2 > q.2 then some p else some q

def argmax_key (l : List (String × ℚ)) : String :=
  (l.foldl argmaxStep none).elim "news" Prod.fst

/-- Model of Python `max(scores.values())` (scores dict is non-empty). -/
def max_value (l : List (String × ℚ)) : ℚ :=
  match l.map Prod.snd with
  | [] => 0
  | v :: vs => vs.foldl (fun a b => if a < b then b else a) v

/-- Embedding of `BaseScraper.categorize_article` (base.py lines 177-222)
for an enabled categorizer configuration `kw`: compute the boosted scores
and return the highest scoring category, or `"news"` when the maximal
score is not positive. (Calling with the categorizer disabled raises and
is modelled separately by `categorize_article_unconfigured`.) -/
def categorize_article (kw : CategoryKeywords) (title content url : String) : String :=
  let scores := final_scores kw title content url
  if max_value scores > 0 then argmax_key scores else "news"

/-- Embedding of the guard at the top of `categorize_article`
(base.py lines 179-180): with `CATEGORY_KEYWORDS` still `None` the method
raises; with a configuration it returns the categorization result. -/
def categorize_article_checked (kw? : Option CategoryKeywords)
    (title content url : String) : Except String String :=
  match kw? with
  | none => .error "categorizer is not enabled"
  | some kw => .ok (categorize_article kw title content url)

/-! ## Article records (src/data_class/raw_data.py) -/

/-- Embedding of the `RawData` dataclass: the unit of scraper output. -/
structure RawData where
  title : String
  content : String
  publish_date : String
  url : String
  source : String
  type : String
  source_bias : Option String
  claim : Option String
  verdict : Option String
  authors : List String
  deriving DecidableEq, Repr

/-- Model of Python `"\n\n".join(blocks)`. -/
def joinNN (blocks : List String) : String :=
  ⟨(((blocks.map String.data).intersperse ['\n', '\n'])).flatten⟩

/-! ## Publish dates (claim C2)

The Rappler variants run the `datetime` attribute of the page through
`datetime.fromisoformat(...)` and persist `.isoformat()` of the result; the
other variants persist the page text unchanged (apart from `.strip()`).
`PyDateTime` models the value `fromisoformat` produces (whole-second
precision, optional whole-minute UTC offset — the shapes `fromisoformat`
accepts from these pages); `pyIsoformat` models `datetime.isoformat()` on
that domain, rendering each numeric field zero-padded to its fixed width
(faithful on the invariant domain of `datetime`: year < 10000, two-digit month,
day, hour, minute, second, offset hours and minutes). -/

/-- Model of a parsed `datetime.datetime` value: whole seconds plus an
optional UTC offset in minutes. -/
structure PyDateTime where
  year : Nat
  month : Nat
  day : Nat
  hour : Nat
  minute : Nat
  second : Nat
  tzMinutes : Option Int
  deriving DecidableEq, Repr

/-- Two-digit zero-padded decimal rendering (for month, day, … fields). -/
def pad2 (n : Nat) : String :=
  ⟨[Nat.digitChar (n / 10 % 10), Nat.digitChar (n % 10)]⟩

/-- Four-digit zero-padded decimal rendering (for the year field). -/
def pad4 (n : Nat) : String :=
  ⟨[Nat.digitChar (n / 1000 % 10), Nat.digitChar (n / 100 % 10),
    Nat.digitChar (n / 10 % 10), Nat.digitChar (n % 10)]⟩

/-- Model of `datetime.isoformat()` on `PyDateTime`:
`YYYY-MM-DDTHH:MM:SS` followed by `±HH:MM` when an offset is present. -/
def pyIsoformat (dt : PyDateTime) : String :=
  pad4 dt.year ++ "-" ++ pad2 dt.month ++ "-" ++ pad2 dt.day ++ "T" ++
  pad2 dt.hour ++ ":" ++ pad2 dt.minute ++ ":" ++ pad2 dt.second ++
  (match dt.tzMinutes with
   | none => ""
   | some o =>
     (if o < 0 then "-" else "+") ++ pad2 (o.natAbs / 60) ++ ":" ++ pad2 (o.natAbs % 60))

/-- Modelled from the spec: recognizer for the ISO-8601 date-time strings
the `publish_date` invariant of the spec describes — `YYYY-MM-DDTHH:MM:SS`
with an optional `±HH:MM` offset.  Used only to state the spec side of
claim C2; the code side is the per-variant extraction pipeline. -/
def isISO8601DateTime (s : String) : Bool :=
  match s.data with
  | y1 :: y2 :: y3 :: y4 :: c1 :: m1 :: m2 :: c2 :: d1 :: d2 :: c3 ::
      h1 :: h2 :: c4 :: n1 :: n2 :: c5 :: s1 :: s2 :: rest =>
    ([y1, y2, y3, y4, m1, m2, d1, d2, h1, h2, n1, n2, s1, s2].all Char.isDigit) &&
    (c1 = '-' : Bool) && (c2 = '-' : Bool) && (c3 = 'T' : Bool) &&
    (c4 = ':' : Bool) && (c5 = ':' : Bool) &&
    (match rest with
     | [] => true
     | e :: o1 :: o2 :: c6 :: o3 :: o4 :: [] =>
       ((e = '+' : Bool) || (e = '-' : Bool)) && (c6 = ':' : Bool) &&
       [o1, o2, o3, o4].all Char.isDigit
     | _ => false)
  | _ => false

/-! ## Per-variant field extraction and record assembly (claim C2)

Each page structure carries the raw element texts the selectors of the
variant read; the `…_extract_data` functions mirror the corresponding
`extract_data_from_url` bodies after a successful navigation and
extraction (the failure paths, which persist nothing, are modelled for
claim C7). -/

/-- Element texts a Politifact statement page provides
(politifact_factcheck_scraper.py). -/
structure PolitifactPage where
  quoteText : String
  descText : String
  verdictAlt : String
  contentBlocks : List String

/-- Embedding of `PolitifactScraper.extract_publish_date` (lines 95-101):
the stripped inner text of the statement description element — persisted
with no date parsing or normalization. -/
def politifact_extract_publish_date (pg : PolitifactPage) : String :=
  pyStrip pg.descText

/-- Embedding of the `RawData` assembly in
`PolitifactScraper.extract_data_from_url` (lines 126-149). -/
def politifact_extract_data (pg : PolitifactPage) (url : String) : RawData :=
  let title := pyStrip pg.quoteText
  { title := title
    content := joinNN pg.contentBlocks
    publish_date := politifact_extract_publish_date pg
    url := url
    source := "politifact"
    type := "fact-check"
    source_bias := none
    claim := some title
    verdict := some (pyStrip pg.verdictAlt)
    authors := [] }

/-- Element texts a Poynter article page provides
(poynter_factcheck_scraper.py). -/
structure PoynterPage where
  headlineText : String
  dateText : String
  contentParagraphs : List String
  authorTexts : List String

/-- Embedding of `PoynterFactcheckScraper.extract_publish_date`
(lines 107-108): the stripped inner text of `div.poynter-blog-date` —
persisted with no date parsing or normalization. -/
def poynter_extract_publish_date (pg : PoynterPage) : String :=
  pyStrip pg.dateText

/-- Embedding of the `RawData` assembly in
`PoynterFactcheckScraper.extract_data_from_url` (lines 142-164). -/
def poynter_extract_data (pg : PoynterPage) (url : String) : RawData :=
  let title := pyStrip pg.headlineText
  { title := title
    content := joinNN ((pg.contentParagraphs.map pyStrip).filter (fun t => !(t = "" : Bool)))
    publish_date := poynter_extract_publish_date pg
    url := url
    source := "poynter"
    type := "fact-check-no-verdict"
    source_bias := none
    claim := some title
    verdict := none
    authors := pg.authorTexts.map pyStrip }

/-- Element texts a FullFact article page provides
(fullfact_factcheck_scraper.py). -/
structure FullfactPage where
  titleText : String
  timestampText : String
  contentBlocks : List String
  authorTexts : List String
  claimVerdictPairs : List (String × String)

/-- Embedding of `FullfactFactcheckScraper.extract_publish_date`
(lines 118-119): the stripped inner text of the first `div.timestamp` —
persisted with no date parsing or normalization. -/
def fullfact_extract_publish_date (pg : FullfactPage) : String :=
  pyStrip pg.timestampText

/-- Embedding of the fan-out `RawData` assembly in
`FullfactFactcheckScraper.extract_data_from_url` (lines 153-198): one
record per claim/verdict pair, or a single `fact-check-no-verdict` record
with the title as the claim when no pairs were found. -/
def fullfact_extract_data (pg : FullfactPage) (url : String) : List RawData :=
  let title := pyStrip pg.titleText
  let publish_date := fullfact_extract_publish_date pg
  let content := joinNN ((pg.contentBlocks.map pyStrip).filter (fun t => !(t = "" : Bool)))
  let authors := pg.authorTexts
  if pg.claimVerdictPairs.isEmpty then
    [{ title := title, content := content, publish_date := publish_date, url := url
       source := "fullfact", type := "fact-check-no-verdict", source_bias := none
       claim := some title, verdict := none, authors := authors }]
  else
    pg.claimVerdictPairs.map (fun cv =>
      { title := title, content := content, publish_date := publish_date, url := url
        source := "fullfact", type := "fact-check", source_bias := none
        claim := some cv.1, verdict := some cv.2, authors := authors })

/-- Element texts a FactcheckOrg article page provides
(factcheckorg_factcheck_scraper.py). -/
structure FactcheckorgPage where
  titleText : String
  datetimeAttr : String
  contentParagraphs : List String
  authorTexts : List String

/-- Embedding of `FactcheckorgScraper.extract_publish_date` (lines 98-99):
the raw `datetime` attribute of the `p.posted-on > time` element — not
even stripped, and persisted with no date parsing or normalization. -/
def factcheckorg_extract_publish_date (pg : FactcheckorgPage) : String :=
  pg.datetimeAttr

/-- Embedding of the `RawData` assembly in
`FactcheckorgScraper.extract_data_from_url` (lines 131-153). -/
def factcheckorg_extract_data (pg : FactcheckorgPage) (url : String) : RawData :=
  let title := pyStrip pg.titleText
  { title := title
    content := joinNN ((pg.contentParagraphs.map pyStrip).filter (fun t => !(t = "" : Bool)))
    publish_date := factcheckorg_extract_publish_date pg
    url := url
    source := "factcheckorg"
    type := "fact-check-no-verdict"
    source_bias := none
    claim := some title
    verdict := none
    authors := pg.authorTexts }

/-- Embedding of the `RawData` assembly in
`RapplerScraper.extract_data_from_url` (rappler_factcheck_scraper.py lines
178-189): `publish_date` is `datetime.fromisoformat(attr).isoformat()`,
modelled as `pyIsoformat` of the parsed datetime `dt`. -/
def rappler_fc_article_record (title : String) (dt : PyDateTime)
    (claim verdict content url : String) : RawData :=
  { title := title, content := content, publish_date := pyIsoformat dt, url := url
    source := "rappler", type := "fact-check", source_bias := none
    claim := some claim, verdict := some verdict, authors := [] }

/-- Embedding of the `RawData` assembly in
`RapplerUnifiedScraper.extract_data_from_url` (rappler_unified_scraper.py
lines 177-188): same ISO round-trip for `publish_date`. -/
def rappler_unified_article_record (title : String) (dt : PyDateTime)
    (content url : String) (authors : List String) : RawData :=
  { title := title, content := content, publish_date := pyIsoformat dt, url := url
    source := "rappler", type := "news", source_bias := none
    claim := none, verdict := none, authors := authors }

/-- Embedding of the `RawData` assembly in
`RapplerElectionsScraper.extract_data_from_url`
(rappler_elections_scraper.py lines 149-160): the same
`datetime.fromisoformat(attr).isoformat()` round-trip for
`publish_date` (lines 94-97 and 152). -/
def rappler_elections_article_record (title : String) (dt : PyDateTime)
    (content url : String) (authors : List String) : RawData :=
  { title := title, content := content, publish_date := pyIsoformat dt, url := url
    source := "rappler", type := "elections", source_bias := none
    claim := none, verdict := none, authors := authors }

/-! ## Rappler claim extraction (claim C4)

`RapplerScraper.extract_claim` (rappler_factcheck_scraper.py lines
106-136) locates elements with Playwright selectors.  Playwright
`:has-text("…")` and `:text("…")` pseudo-classes match by
case-insensitive substring (Playwright documented semantics), while the
subsequent Python `removeprefix` is case-sensitive; the page model below
captures exactly what those selectors consult: the element tag, whether
it sits under `div.entry-content`, its inner text, and the texts of any
`strong` children (for the `li:has(strong:text(…))` selectors). -/

/-- Tags distinguished by the claim/verdict selectors. -/
inductive ETag where
  | p
  | li
  | h5
  | other
  deriving DecidableEq, Repr

/-- A page element as seen by the claim-extraction selectors. -/
structure PageElement where
  tag : ETag
  inEntryContent : Bool
  text : String
  strongTexts : List String
  deriving DecidableEq, Repr

/-- Case-insensitive substring match: the semantics of Playwright
`:has-text(pat)` / `:text(pat)` against the text of an element. -/
def ciHasSub (t pat : String) : Bool :=
  strHasSub (pyLower t) (pyLower pat)

/-- Selector 1 of `extract_claim`: the comma-joined Playwright selector
for a content-div paragraph, a list item with a strong child, or an h5
heading, each matching the text "Claim:". -/
def rapplerClaimSel1 (e : PageElement) : Bool :=
  (e.tag = ETag.p && e.inEntryContent && ciHasSub e.text "Claim:") ||
  (e.tag = ETag.li && e.strongTexts.any (fun s => ciHasSub s "Claim:")) ||
  (e.tag = ETag.h5 && ciHasSub e.text "Claim:")

/-- Selector 2: a content-div paragraph matching the text "The claim:". -/
def rapplerClaimSel2 (e : PageElement) : Bool :=
  e.tag = ETag.p && e.inEntryContent && ciHasSub e.text "The claim:"

/-- Selector 3: a content-div paragraph or a list item with a strong
child, matching the Tagalog label "Ang sabi-sabi:". -/
def rapplerClaimSel3 (e : PageElement) : Bool :=
  (e.tag = ETag.p && e.inEntryContent && ciHasSub e.text "Ang sabi-sabi:") ||
  (e.tag = ETag.li && e.strongTexts.any (fun s => ciHasSub s "Ang sabi-sabi:"))

/-- Selector 4: any paragraph matching "CLAIM:" (not scoped to the content div). -/
def rapplerClaimSel4 (e : PageElement) : Bool :=
  e.tag = ETag.p && ciHasSub e.text "CLAIM:"

/-- Selector 5: any paragraph matching "ANG SABI-SABI:". -/
def rapplerClaimSel5 (e : PageElement) : Bool :=
  e.tag = ETag.p && ciHasSub e.text "ANG SABI-SABI:"

/-- Embedding of `RapplerScraper.extract_claim` (lines 106-136): try the
five selectors in order; on the first with a match, return the text of the matched
element stripped and with the label prefix of that selector removed
case-sensitively (`strip().removeprefix(label)`); raise when none match.
The inner text is read from the single matched element (the pages in
question carry one claim element; Playwright strict mode would reject
several). -/
def rappler_extract_claim (page : List PageElement) : Except String String :=
  match page.filter rapplerClaimSel1 with
  | e :: _ => .ok (pyRemovePre (pyStrip e.text) "Claim: ")
  | [] =>
  match page.filter rapplerClaimSel2 with
  | e :: _ => .ok (pyRemovePre (pyStrip e.text) "The claim: ")
  | [] =>
  match page.filter rapplerClaimSel3 with
  | e :: _ => .ok (pyRemovePre (pyStrip e.text) "Ang sabi-sabi: ")
  | [] =>
  match page.filter rapplerClaimSel4 with
  | e :: _ => .ok (pyRemovePre (pyStrip e.text) "CLAIM: ")
  | [] =>
  match page.filter rapplerClaimSel5 with
  | e :: _ => .ok (pyRemovePre (pyStrip e.text) "ANG SABI-SABI: ")
  | [] => .error "No claim element found"

/-! ## Navigation with retry (claim C6, base.py lines 128-148) -/

/-- Worker for `navigate_with_retry`: `remaining` attempts left,
`attempt` attempts already made, `sleeps` sleeps performed so far.
Returns (result, attempts made, sleeps performed).  A sleep happens after
a failed attempt only when further attempts remain
(`if attempt < max_retries - 1`), which is exactly `remaining - 1 ≥ 1`
after consuming the current attempt. -/
def navLoop (outcome : Nat → Bool) : Nat → Nat → Nat → Bool × Nat × Nat
  | 0, attempt, sleeps => (false, attempt, sleeps)
  | remaining + 1, attempt, sleeps =>
    if outcome attempt then (true, attempt + 1, sleeps)
    else navLoop outcome remaining (attempt + 1) (if remaining = 0 then sleeps else sleeps + 1)

/-- Embedding of `BaseScraper.navigate_with_retry` (base.py lines
128-148): with no page handle (`self.page == None`) the method raises;
otherwise attempt navigation up to `max_retries` times, returning `true`
on the first success and `false` after exhausting the attempts (never
raising).  `outcome k` tells whether the `k`-th `page.goto` succeeds;
the returned triple is (result, attempts made, sleeps performed). -/
def navigate_with_retry (pageStarted : Bool) (outcome : Nat → Bool)
    (max_retries : Nat) : Except String (Bool × Nat × Nat) :=
  if pageStarted then .ok (navLoop outcome max_retries 0 0)
  else .error "Unable to navigate, no page found"

/-! ## Crawl-loop termination (claim C3)

One loop iteration of the `process` of each variant, abstracted to the
decision it makes: stop the loop or continue to the next page.  The page
counter and the URLs extracted from the listing are the inputs the real loop
bodies consult for that decision. -/

/-- Outcome of one crawl-loop iteration. -/
inductive LoopStep where
  | stop
  | continueTo (next : Nat)
  deriving DecidableEq, Repr

/-- Iteration decision of `FullfactFactcheckScraper.process`
(fullfact_factcheck_scraper.py lines 26-58): break exactly when the
listing yielded no URLs, else advance to the next page. -/
def fullfact_loop_step (curr : Nat) (urls : List String) : LoopStep :=
  if urls.isEmpty then .stop else .continueTo (curr + 1)

/-- Iteration decision of `RapplerScraper.process`
(rappler_factcheck_scraper.py lines 32-57): the body contains no break at
all — it always advances to the next page. -/
def rappler_fc_loop_step (curr : Nat) (_urls : List String) : LoopStep :=
  .continueTo (curr + 1)

/-- Iteration decision of `RapplerUnifiedScraper.process`
(rappler_unified_scraper.py lines 25-70): break exactly when the page
counter has passed `end_page` (checked before anything else); the
empty-URL check is commented out, so the listing result is never
consulted for termination. -/
def rappler_unified_loop_step (end_page curr : Nat) (_urls : List String) : LoopStep :=
  if curr > end_page then .stop else .continueTo (curr + 1)

/-- The `end_page` configured by `RapplerUnifiedScraper.__init__`. -/
def rappler_unified_end_page : Nat := 9100

/-! ## Per-URL processing and the retry log (claim C7) -/

/-- Embedding of a retry-log entry (`{"url": url, "reason": reason}`). -/
structure RetryEntry where
  url : String
  reason : String
  deriving DecidableEq, Repr

/-- What happens when `extract_data_from_url` visits a URL: navigation
fails after retries, some extraction step raises (with the traceback
text as detail), or extraction succeeds with a record. -/
inductive FetchOutcome where
  | navFail
  | extractFail (detail : String)
  | success (rec : RawData)

/-- Embedding of `RapplerScraper.extract_data_from_url`
(rappler_factcheck_scraper.py lines 161-191): returns the record to
persist (`none` on any failure) together with the retry entries appended
— one entry with empty reason on navigation failure (line 165), one with
the failure detail on an extraction failure (line 175), none on success. -/
def rappler_fc_extract_from_url (oracle : String → FetchOutcome) (url : String) :
    Option RawData × List RetryEntry :=
  match oracle url with
  | .navFail => (none, [⟨url, ""⟩])
  | .extractFail d => (none, [⟨url, d⟩])
  | .success r => (some r, [])

/-- Embedding of the per-URL loop body of `RapplerScraper.process`
(lines 44-57): visit each URL in order; a `None` result is skipped
(`continue`), a record is appended to the output store; retry entries
accumulate in the retry log. -/
def rappler_fc_process_urls (oracle : String → FetchOutcome) :
    List String → List RawData × List RetryEntry
  | [] => ([], [])
  | u :: rest =>
    let this := rappler_fc_extract_from_url oracle u
    let next := rappler_fc_process_urls oracle rest
    (this.1.toList ++ next.1, this.2 ++ next.2)

/-! ## Append-only JSON persistence (claim C8, base.py lines 71-126) -/

/-- The backing JSON document of an output or retry file: missing
(`none`), present but unparsable (`some (.error ())`, a
`json.JSONDecodeError` on read), or a parsed list of entries. -/
def JsonDoc (α : Type) : Type := Option (Except Unit (List α))

/-- Embedding of the read step of `append_to_json`/`append_to_retry`
(base.py lines 77-83 and 105-111): a missing or unparsable document is
read as the empty list. -/
def read_existing_data {α : Type} (doc : JsonDoc α) : List α :=
  match doc with
  | none => []
  | some (.error _) => []
  | some (.ok l) => l

/-- Embedding of `BaseScraper.append_to_json` (base.py lines 71-97): the
whole body sits in a `try`/`except` that logs and swallows any failure,
so the method always returns normally; `ioFail` models an I/O error
raised inside the `try` (the document is then left as it was and the
record is silently dropped); otherwise the read-back list with the new
entry appended is rewritten as the whole document. -/
def append_to_json {α : Type} (ioFail : Bool) (doc : JsonDoc α) (record : α) : JsonDoc α :=
  if ioFail then doc else some (.ok (read_existing_data doc ++ [record]))

/-- Embedding of `BaseScraper.append_to_retry` (base.py lines 99-126):
identical discipline, with the new entry built as `{url, reason}`. -/
def append_to_retry (ioFail : Bool) (doc : JsonDoc RetryEntry)
    (url reason : String) : JsonDoc RetryEntry :=
  if ioFail then doc else some (.ok (read_existing_data doc ++ [⟨url, reason⟩]))

/-! ## Relative-URL resolution (claim C9) -/

/-- Embedding of the href-resolution step shared by the listing-URL
extractors (`rappler_factcheck_scraper.py` lines 90-93,
`fullfact_factcheck_scraper.py` lines 79-81, and the other variants):
`if href.startswith("/"): href = f"{origin}{href}"`. -/
def resolve_href (origin href : String) : String :=
  if pyStartsWith href "/" then origin ++ href else href

/-! ## Politifact crawl start-up (claim C10)

`PolitifactScraper.process` reads `self.restart_interval` at the top of
its first loop iteration, but neither `PolitifactScraper.__init__` nor
`BaseScraper.__init__` assigns that attribute; the Python attribute
lookup therefore raises `AttributeError` before any listing page is
navigated.  The init chain is embedded as the list of attribute names the
two constructors assign, and the loop reads its configuration through an
explicit lookup that fails exactly when the name was never assigned. -/

/-- Attribute names assigned by `BaseScraper.__init__` (base.py lines
32-51; `output_file`/`retry_file`/`CATEGORY_KEYWORDS` are always bound,
conditionally overwritten) followed by `PolitifactScraper.__init__`
(politifact_factcheck_scraper.py lines 10-15). -/
def politifact_attr_names : List String :=
  ["pw", "browser", "page", "headless", "retry_file", "output_file",
   "CATEGORY_KEYWORDS", "start_page"]

/-- The numeric attribute values `PolitifactScraper.__init__` assigns:
only `start_page` (default 92). -/
def politifact_nat_attrs (start_page : Nat) : List (String × Nat) :=
  [("start_page", start_page)]

/-- Python attribute lookup for the numeric crawl configuration: an
unassigned name raises `AttributeError`. -/
def getNatAttr (attrs : List (String × Nat)) (names : List String)
    (name : String) : Except String Nat :=
  if names.contains name then
    .ok ((attrs.lookup name).getD 0)
  else
    .error ("AttributeError: " ++ name)

/-- Trace of one `process` invocation: listing pages navigated, records
persisted, retry entries appended, whether `quit()` ran, and the caught
exception text (the `except` block swallows it, so `process` itself
returns normally either way). -/
structure CrawlResult where
  navigations : List Nat
  persisted : List RawData
  retried : List RetryEntry
  quitCalled : Bool
  caughtError : Option String
  deriving Repr

/-- The `try`-block body of `PolitifactScraper.process`
(politifact_factcheck_scraper.py lines 24-66), one iteration per unit of
fuel (the real loop is `while True`): read `self.restart_interval`
(raising `AttributeError` when unassigned), optionally restart, navigate
to the listing page, locate articles and break when none, extract their
URLs and break when none, process each URL, advance the page counter.
`articlesOn page` gives the hrefs located on listing page `page`;
`oracle` drives per-URL extraction as in `rappler_fc_extract_from_url`
(the politifact per-URL code has the same success/retry shape). -/
def politifact_loop (attrs : List (String × Nat)) (names : List String)
    (articlesOn : Nat → List String) (oracle : String → FetchOutcome) :
    Nat → Nat → Nat → CrawlResult
  | 0, _, _ => { navigations := [], persisted := [], retried := [],
                 quitCalled := false, caughtError := none }
  | fuel + 1, startPage, curr =>
    match getNatAttr attrs names "restart_interval" with
    | .error e => { navigations := [], persisted := [], retried := [],
                    quitCalled := false, caughtError := some e }
    | .ok _restartInterval =>
      let hrefs := articlesOn curr
      if hrefs.isEmpty then
        { navigations := [curr], persisted := [], retried := [],
          quitCalled := false, caughtError := none }
      else
        let urls := hrefs.map (resolve_href "https://www.politifact.com")
        if urls.isEmpty then
          { navigations := [curr], persisted := [], retried := [],
            quitCalled := false, caughtError := none }
        else
          let batch := rappler_fc_process_urls oracle urls
          let rest := politifact_loop attrs names articlesOn oracle fuel startPage (curr + 1)
          { navigations := curr :: rest.navigations
            persisted := batch.1 ++ rest.persisted
            retried := batch.2 ++ rest.retried
            quitCalled := rest.quitCalled
            caughtError := rest.caughtError }

/-- Embedding of `PolitifactScraper.process` (lines 17-72): run the loop
inside `try`/`except`/`finally` — the `except` swallows any exception
after logging it, and the `finally` always runs `quit()`. -/
def politifact_process (articlesOn : Nat → List String)
    (oracle : String → FetchOutcome) (startPage fuel : Nat) : CrawlResult :=
  let r := politifact_loop (politifact_nat_attrs startPage) politifact_attr_names
    articlesOn oracle fuel startPage startPage
  { r with quitCalled := true }

/-! ## Concrete inputs used by the claim-level theorems -/

/-- An empty keyword configuration (all four lists empty). -/
def kwEmpty : CategoryKeywords := ⟨[], [], [], []⟩

/-- A Rappler nation-section URL whose path contains `/nation/`, one of the
configured social-issues boost patterns. -/
def c1Url : String := "https://www.rappler.com/nation/foo"

/-- A keyword configuration under which a URL boost flips the argmax away
from the best pre-boost category: the news list is diluted to five
keywords so a single hit scores 1/5. -/
def kwPre : CategoryKeywords := ⟨["zz"], ["yy"], ["aa", "bb", "cc", "dd", "ee"], ["ww"]⟩

/-- A one-keyword politics configuration whose keyword a title hits. -/
def kwWit : CategoryKeywords := ⟨["ha"], [], [], []⟩

/-- A Poynter page presenting its date in a locale-specific format. -/
def c2PoynterPage : PoynterPage :=
  ⟨"Fact-checking a claim", "June 14, 2024", ["Body."], ["A. Writer"]⟩

/-- A page whose only claim-labelled element is a paragraph inside
`div.entry-content` with the upper-case label. -/
def c4PageInContent : List PageElement :=
  [⟨ETag.p, true, "CLAIM: Vaccines cause X", []⟩]

/-- The same paragraph placed outside `div.entry-content`. -/
def c4PageOutsideContent : List PageElement :=
  [⟨ETag.p, false, "CLAIM: Vaccines cause X", []⟩]

/-- A successfully extracted record used by the per-URL processing
witness. -/
def c7Record : RawData :=
  ⟨"Title", "Content", "2024-01-01T00:00:00", "https://www.rappler.com/a",
   "rappler", "fact-check", none, some "claim text", some "False", []⟩

/-- An extraction oracle that fails on one specific URL and succeeds
elsewhere. -/
def c7Oracle : String → FetchOutcome := fun s =>
  if s = "https://www.rappler.com/b" then .extractFail "Traceback: boom"
  else .success c7Record

/-! ## Helper lemmas -/

/-- `qadd` agrees with ordinary rational addition. -/
theorem qadd_eq_add (a b : ℚ) : qadd a b = a + b := by
  have ha : ((a.den : ℚ)) ≠ 0 := Nat.cast_ne_zero.mpr a.den_nz
  have hb : ((b.den : ℚ)) ≠ 0 := Nat.cast_ne_zero.mpr b.den_nz
  unfold qadd
  rw [Rat.divInt_eq_div]
  push_cast
  conv_rhs => rw [← Rat.num_div_den a, ← Rat.num_div_den b]
  rw [div_add_div _ _ ha hb]
  ring_nf

theorem mkRat_nonneg (n : ℕ) (d : ℕ) : 0 ≤ mkRat n d := by
  rw [Rat.mkRat_eq_div]
  positivity

theorem mkRat_3_10_nonneg : (0 : ℚ) ≤ mkRat 3 10 := mkRat_nonneg 3 10

theorem mkRat_1_5_nonneg : (0 : ℚ) ≤ mkRat 1 5 := mkRat_nonneg 1 5

theorem charsPre_cons (c : Char) (cs l : List Char) (h : charsPre (c :: cs) l = true) :
    ∃ t, l = c :: t := by
  cases l with
  | nil => simp [charsPre] at h
  | cons b bs =>
    refine ⟨bs, ?_⟩
    simp only [charsPre, Bool.and_eq_true, decide_eq_true_eq] at h
    rw [h.1]

/-- Appending anything to a string that begins with an URL scheme cannot
produce a string that begins with a slash. -/
theorem pyStartsWith_append_http (origin href : String)
    (h : pyStartsWith origin "https://" = true) :
    pyStartsWith (origin ++ href) "/" = false := by
  unfold pyStartsWith at h ⊢
  have hdata : ("https://" : String).data = 'h' :: "ttps://".data := rfl
  rw [hdata] at h
  obtain ⟨t, ht⟩ := charsPre_cons _ _ _ h
  have happ : (origin ++ href).data = origin.data ++ href.data := rfl
  rw [happ, ht]
  simp [charsPre]

theorem digitChar_mod_isDigit (n : Nat) : (Nat.digitChar (n % 10)).isDigit = true := by
  have h : n % 10 < 10 := Nat.mod_lt _ (by norm_num)
  set m := n % 10 with hm
  interval_cases m <;> rfl

/-- `datetime.isoformat()` output always has the ISO-8601 date-time shape. -/
theorem pyIsoformat_isISO (dt : PyDateTime) :
    isISO8601DateTime (pyIsoformat dt) = true := by
  have hdata : ∀ (a b : String), (a ++ b).data = a.data ++ b.data := fun a b => rfl
  unfold pyIsoformat pad4 pad2 isISO8601DateTime
  cases htz : dt.tzMinutes with
  | none =>
    simp only [htz, hdata]
    simp [digitChar_mod_isDigit]
  | some o =>
    rcases lt_or_le o 0 with ho | ho
    · simp only [htz, hdata, if_pos ho]
      simp [digitChar_mod_isDigit]
    · simp only [htz, hdata, if_neg (not_lt.mpr ho)]
      simp [digitChar_mod_isDigit]

/-- Evaluation of the URL-boost loop on the scores dict: the politics and
government entries receive `+0.3` exactly when one of their patterns
occurs in the path; the social_issues entry is never changed, because the
boosting key `"social-issues"` is not a key of the scores dict and the
`if category in scores` guard skips it. -/
theorem apply_url_boosts_eval (path : String) (p s n g : ℚ) :
    apply_url_boosts path
        [("politics", p), ("social_issues", s), ("news", n), ("government", g)] =
      [("politics",
        if (["/politics/", "/government/", "/elections/"] : List String).any
            (fun pat => strHasSub path pat) then qadd p (mkRat 3 10) else p),
       ("social_issues", s),
       ("news", n),
       ("government",
        if (["/agencies/", "/departments/", "/bureau/", "/office/"] : List String).any
            (fun pat => strHasSub path pat) then qadd g (mkRat 3 10) else g)] := by
  unfold apply_url_boosts url_categories
  simp only [List.foldl]
  by_cases h1 : (((["/politics/", "/government/", "/elections/"] : List String).any
      (fun pat => strHasSub path pat)) = true)
  all_goals by_cases h2 : (((["/nation/", "/metro-manila/", "/regions/"] : List String).any
      (fun pat => strHasSub path pat)) = true)
  all_goals by_cases h3 : (((["/agencies/", "/departments/", "/bureau/", "/office/"] :
      List String).any (fun pat => strHasSub path pat)) = true)
  all_goals simp [h1, h2, h3, assocAdd]

theorem apply_entity_boost_eval (kw : CategoryKeywords) (path : String) (p s n g : ℚ) :
    apply_entity_boost kw path
        [("politics", p), ("social_issues", s), ("news", n), ("government", g)] =
      [("politics", p), ("social_issues", s), ("news", n),
       ("government",
        if kw.government_entities.any (fun e => (pySplit path "/").contains e) then
          qadd g (mkRat 1 5)
        else g)] := by
  unfold apply_entity_boost
  split_ifs with h
  · simp [assocAdd]
  · rfl

theorem get_keyword_score_nonneg (t : String) (ks : List String) :
    0 ≤ get_keyword_score t ks := by
  unfold get_keyword_score
  split
  · exact le_refl _
  · exact mkRat_nonneg _ _

theorem ite_qadd_nonneg (c : Prop) [Decidable c] (x d : ℚ) (hx : 0 ≤ x) (hd : 0 ≤ d) :
    0 ≤ (if c then qadd x d else x) := by
  split
  · rw [qadd_eq_add]; exact add_nonneg hx hd
  · exact hx

/-- Full evaluation of the boosted scores dict. -/
theorem final_scores_eval (kw : CategoryKeywords) (title content url : String) :
    final_scores kw title content url =
      [("politics",
        if (["/politics/", "/government/", "/elections/"] : List String).any
            (fun pat => strHasSub (pyLower (urlPathOf url)) pat) then
          qadd (get_keyword_score (pyLower (title ++ " " ++ content)) kw.politics)
            (mkRat 3 10)
        else get_keyword_score (pyLower (title ++ " " ++ content)) kw.politics),
       ("social_issues",
        get_keyword_score (pyLower (title ++ " " ++ content)) kw.social_issues),
       ("news", get_keyword_score (pyLower (title ++ " " ++ content)) kw.news),
       ("government",
        if kw.government_entities.any
            (fun e => (pySplit (pyLower (urlPathOf url)) "/").contains e) then
          qadd
            (if (["/agencies/", "/departments/", "/bureau/", "/office/"] : List String).any
                (fun pat => strHasSub (pyLower (urlPathOf url)) pat) then
              qadd
                (get_keyword_score (pyLower (title ++ " " ++ content)) kw.government_entities)
                (mkRat 3 10)
            else get_keyword_score (pyLower (title ++ " " ++ content)) kw.government_entities)
            (mkRat 1 5)
        else
          if (["/agencies/", "/departments/", "/bureau/", "/office/"] : List String).any
              (fun pat => strHasSub (pyLower (urlPathOf url)) pat) then
            qadd (get_keyword_score (pyLower (title ++ " " ++ content)) kw.government_entities)
              (mkRat 3 10)
          else get_keyword_score (pyLower (title ++ " " ++ content)) kw.government_entities)] := by
  unfold final_scores base_scores
  rw [apply_url_boosts_eval, apply_entity_boost_eval]

theorem max_value_four_ge (k1 k2 k3 k4 : String) (a b c d : ℚ) :
    a ≤ max_value [(k1, a), (k2, b), (k3, c), (k4, d)] ∧
    b ≤ max_value [(k1, a), (k2, b), (k3, c), (k4, d)] ∧
    c ≤ max_value [(k1, a), (k2, b), (k3, c), (k4, d)] ∧
    d ≤ max_value [(k1, a), (k2, b), (k3, c), (k4, d)] := by
  simp only [max_value, List.map, List.foldl]
  split_ifs <;> refine ⟨?_, ?_, ?_, ?_⟩ <;> linarith

/-- The argmax fold invariant: a `some` result is drawn from the list or
the accumulator, and its value dominates both. -/
theorem argmax_fold_some (l : List (String × ℚ)) :
    ∀ (acc : Option (String × ℚ)) (r : String × ℚ),
      l.foldl argmaxStep acc = some r →
      (r ∈ l ∨ acc = some r) ∧ (∀ p ∈ l, p.2 ≤ r.2) ∧
      (∀ q, acc = some q → q.2 ≤ r.2) := by
  induction l with
  | nil =>
    intro acc r h
    simp only [List.foldl] at h
    exact ⟨Or.inr h, by simp, fun q hq => by rw [hq] at h; cases h; exact le_refl _⟩
  | cons p l ih =>
    intro acc r h
    simp only [List.foldl] at h
    obtain ⟨hmem, hle, hacc⟩ := ih (argmaxStep acc p) r h
    have hp : p.2 ≤ r.2 := by
      cases acc with
      | none => exact hacc p rfl
      | some q0 =>
        by_cases hc : p.2 > q0.2
        · exact hacc p (by simp [argmaxStep, hc])
        · exact le_trans (not_lt.mp hc) (hacc q0 (by simp [argmaxStep, hc]))
    refine ⟨?_, ?_, ?_⟩
    · rcases hmem with h1 | h1
      · exact Or.inl (List.mem_cons_of_mem _ h1)
      · cases acc with
        | none =>
          simp only [argmaxStep] at h1
          cases h1
          exact Or.inl (List.mem_cons_self _ _)
        | some q0 =>
          by_cases hc : p.2 > q0.2
          · simp only [argmaxStep, if_pos hc] at h1
            cases h1
            exact Or.inl (List.mem_cons_self _ _)
          · simp only [argmaxStep, if_neg hc] at h1
            exact Or.inr h1
    · intro x hx
      rcases List.mem_cons.mp hx with h1 | h1
      · rw [h1]; exact hp
      · exact hle x h1
    · intro q hq
      cases acc with
      | none => cases hq
      | some q0 =>
        cases hq
        by_cases hc : p.2 > q.2
        · exact le_trans (le_of_lt hc) (hacc p (by simp [argmaxStep, hc]))
        · exact hacc q (by simp [argmaxStep, hc])

theorem argmax_fold_isSome (l : List (String × ℚ)) :
    ∀ (q : String × ℚ) (acc : Option (String × ℚ)),
      acc = some q → ∃ r, l.foldl argmaxStep acc = some r := by
  induction l with
  | nil => intro q acc h; exact ⟨q, h⟩
  | cons p l ih =>
    intro q acc h
    subst h
    simp only [List.foldl]
    by_cases hc : p.2 > q.2
    · exact ih p _ (by simp [argmaxStep, hc])
    · exact ih q _ (by simp [argmaxStep, hc])

/-- On a non-empty list, `argmax_key` returns a key of the list whose
value dominates every value in the list. -/
theorem argmax_key_spec (p4 : String × ℚ) (l : List (String × ℚ)) :
    ∃ v, (argmax_key (p4 :: l), v) ∈ p4 :: l ∧ ∀ p ∈ p4 :: l, p.2 ≤ v := by
  obtain ⟨r, hr⟩ := argmax_fold_isSome l p4 (argmaxStep none p4) rfl
  have hfold : (p4 :: l).foldl argmaxStep none = some r := by
    simpa [List.foldl] using hr
  obtain ⟨hmem, hle, _⟩ := argmax_fold_some (p4 :: l) none r hfold
  refine ⟨r.2, ?_, hle⟩
  have hk : argmax_key (p4 :: l) = r.1 := by
    unfold argmax_key
    rw [hfold]
    rfl
  rw [hk]
  rcases hmem with h | h
  · exact h
  · cases h

/-- The all-fail run of the navigation retry loop: every attempt is made,
the result is `false`, and one sleep happens after every failed attempt
except the last. -/
theorem navLoop_all_fail (outcome : Nat → Bool) :
    ∀ (remaining attempt sleeps : Nat),
      (∀ j, attempt ≤ j → j < attempt + remaining → outcome j = false) →
      navLoop outcome remaining attempt sleeps =
        (false, attempt + remaining, sleeps + (remaining - 1)) := by
  intro remaining
  induction remaining with
  | zero => intro attempt sleeps _; simp [navLoop]
  | succ r ih =>
    intro attempt sleeps h
    have h0 : outcome attempt = false := h attempt le_rfl (by omega)
    unfold navLoop
    rw [h0]
    simp only [Bool.false_eq_true, if_false]
    rcases Nat.eq_zero_or_pos r with hr | hr
    · subst hr
      simp [navLoop]
    · have hrec := ih (attempt + 1) (sleeps + 1) (fun j hj1 hj2 => h j (by omega) (by omega))
      rw [if_neg (by omega)]
      rw [hrec]
      refine congrArg _ (congrArg₂ _ (by omega) (by omega))

/-- The first-success run of the navigation retry loop: the loop returns
`true` right after the first successful attempt, having slept once per
preceding failed attempt. -/
theorem navLoop_first_success (outcome : Nat → Bool) :
    ∀ (k remaining attempt sleeps : Nat),
      k < remaining → outcome (attempt + k) = true →
      (∀ j, j < k → outcome (attempt + j) = false) →
      navLoop outcome remaining attempt sleeps = (true, attempt + k + 1, sleeps + k) := by
  intro k
  induction k with
  | zero =>
    intro remaining attempt sleeps hk hs _
    obtain ⟨r, rfl⟩ : ∃ r, remaining = r + 1 := ⟨remaining - 1, by omega⟩
    unfold navLoop
    simp at hs
    rw [hs]
    simp
  | succ k ih =>
    intro remaining attempt sleeps hk hs hf
    obtain ⟨r, rfl⟩ : ∃ r, remaining = r + 1 := ⟨remaining - 1, by omega⟩
    have h0 : outcome attempt = false := by
      have := hf 0 (by omega)
      simpa using this
    unfold navLoop
    rw [h0]
    simp only [Bool.false_eq_true, if_false]
    rw [if_neg (by omega)]
    have hrec := ih r (attempt + 1) (sleeps + 1) (by omega)
      (by rw [show attempt + 1 + k = attempt + (k + 1) by omega]; exact hs)
      (fun j hj => by
        rw [show attempt + 1 + j = attempt + (j + 1) by omega]
        exact hf (j + 1) (by omega))
    rw [hrec]
    refine congrArg _ (congrArg₂ _ (by omega) (by omega))

/-! ## Claim-level theorems -/

/-- Claim C1, counterexample: with an empty keyword configuration and a
URL whose lower-cased path contains the configured pattern `/nation/`,
the social_issues score stays `0` instead of receiving the claimed `+0.3`
boost (which would make it `qadd 0 (mkRat 3 10)` and the argmax), and the
categorizer returns `"news"` rather than `"social_issues"`. -/
theorem social_issues_boost_counterexample :
    strHasSub (pyLower (urlPathOf c1Url)) "/nation/" = true ∧
    (final_scores kwEmpty "" "" c1Url).lookup "social_issues" = some 0 ∧
    ¬((0 : ℚ) = qadd 0 (mkRat 3 10)) ∧
    categorize_article kwEmpty "" "" c1Url = "news" :=
  ⟨by decide, by decide, by decide, by decide⟩

/-- Claim C1, amended: the URL-path boost of `+0.3` is applied to the
politics and government scores exactly when one of their configured path
patterns occurs in the path, but the social_issues score is never
boosted — the boosting table keys that category as `"social-issues"`,
which is not a key of the scores dict, so the membership guard skips
it. -/
theorem url_boost_by_category (kw : CategoryKeywords) (title content path : String) :
    apply_url_boosts path (base_scores kw title content) =
      [("politics",
        if (["/politics/", "/government/", "/elections/"] : List String).any
            (fun pat => strHasSub path pat) then
          qadd (get_keyword_score (pyLower (title ++ " " ++ content)) kw.politics)
            (mkRat 3 10)
        else get_keyword_score (pyLower (title ++ " " ++ content)) kw.politics),
       ("social_issues",
        get_keyword_score (pyLower (title ++ " " ++ content)) kw.social_issues),
       ("news", get_keyword_score (pyLower (title ++ " " ++ content)) kw.news),
       ("government",
        if (["/agencies/", "/departments/", "/bureau/", "/office/"] : List String).any
            (fun pat => strHasSub path pat) then
          qadd (get_keyword_score (pyLower (title ++ " " ++ content)) kw.government_entities)
            (mkRat 3 10)
        else
          get_keyword_score (pyLower (title ++ " " ++ content)) kw.government_entities)] := by
  have hb : base_scores kw title content =
      [("politics", get_keyword_score (pyLower (title ++ " " ++ content)) kw.politics),
       ("social_issues",
        get_keyword_score (pyLower (title ++ " " ++ content)) kw.social_issues),
       ("news", get_keyword_score (pyLower (title ++ " " ++ content)) kw.news),
       ("government",
        get_keyword_score (pyLower (title ++ " " ++ content)) kw.government_entities)] := rfl
  rw [hb, apply_url_boosts_eval]

/-- Claim C2, counterexample: a Poynter page dating its article
`"June 14, 2024"` has exactly that string persisted as `publish_date`,
and it is not an ISO-8601 date-time string. -/
theorem publish_date_counterexample :
    (poynter_extract_data c2PoynterPage
        "https://www.poynter.org/fact-checking/x").publish_date = "June 14, 2024" ∧
    isISO8601DateTime "June 14, 2024" = false := ⟨rfl, rfl⟩

/-- Claim C2, amended: only the Rappler variants (fact-check, unified,
elections) persist an ISO-normalized `publish_date` (the `datetime`
attribute parsed by `fromisoformat` and re-serialized by `isoformat`);
Politifact, Poynter and FullFact persist the stripped page text verbatim,
and FactcheckOrg persists the raw `datetime` attribute text verbatim,
with no normalization. -/
theorem publish_date_by_variant :
    (∀ (pg : PolitifactPage) (url : String),
        (politifact_extract_data pg url).publish_date = pyStrip pg.descText) ∧
    (∀ (pg : PoynterPage) (url : String),
        (poynter_extract_data pg url).publish_date = pyStrip pg.dateText) ∧
    (∀ (pg : FullfactPage) (url : String),
        ∀ r ∈ fullfact_extract_data pg url, r.publish_date = pyStrip pg.timestampText) ∧
    (∀ (title : String) (dt : PyDateTime) (claim verdict content url : String),
        isISO8601DateTime
          (rappler_fc_article_record title dt claim verdict content url).publish_date =
          true) ∧
    (∀ (title : String) (dt : PyDateTime) (content url : String) (authors : List String),
        isISO8601DateTime
          (rappler_unified_article_record title dt content url authors).publish_date =
          true) ∧
    (∀ (pg : FactcheckorgPage) (url : String),
        (factcheckorg_extract_data pg url).publish_date = pg.datetimeAttr) ∧
    (∀ (title : String) (dt : PyDateTime) (content url : String) (authors : List String),
        isISO8601DateTime
          (rappler_elections_article_record title dt content url authors).publish_date =
          true) := by
  refine ⟨fun pg url => rfl, fun pg url => rfl, fun pg url r hr => ?_,
    fun _ dt _ _ _ _ => pyIsoformat_isISO dt, fun _ dt _ _ _ => pyIsoformat_isISO dt,
    fun pg url => rfl, fun _ dt _ _ _ => pyIsoformat_isISO dt⟩
  unfold fullfact_extract_data at hr
  cases hp : pg.claimVerdictPairs.isEmpty with
  | true =>
    simp only [hp, if_true, List.mem_singleton] at hr
    subst hr
    rfl
  | false =>
    simp only [hp, Bool.false_eq_true, if_false, List.mem_map] at hr
    obtain ⟨cv, _, hr⟩ := hr
    rw [← hr]
    rfl

/-- Claim C2, witness: the amended theorem applied to a concrete FullFact
page with one claim/verdict pair. -/
theorem publish_date_by_variant_witness :
    ∀ r ∈ fullfact_extract_data
        ⟨"T", " 14 June 2024 ", ["B"], ["W"], [("c", "v")]⟩ "https://fullfact.org/x",
      r.publish_date = pyStrip " 14 June 2024 " :=
  publish_date_by_variant.2.2.1
    ⟨"T", " 14 June 2024 ", ["B"], ["W"], [("c", "v")]⟩ "https://fullfact.org/x"

/-- Claim C3, counterexample: the Rappler fact-check crawl loop does not
stop on an empty listing (its body has no break at all), and the unified
Rappler crawl loop stops on a non-empty listing once the page counter
passes `end_page` — so an empty result is neither always sufficient nor
necessary for normal termination across the variants. -/
theorem crawl_termination_counterexample :
    rappler_fc_loop_step 1 [] ≠ LoopStep.stop ∧
    rappler_unified_loop_step rappler_unified_end_page 9101
      ["https://www.rappler.com/philippines/x"] = LoopStep.stop := by
  constructor
  · decide
  · decide

/-- Claim C3, amended: termination is variant-specific — the FullFact loop
stops exactly when the listing yields no URLs; the Rappler fact-check
loop never terminates normally; the unified Rappler loop ignores the
listing result and stops exactly when the page counter exceeds
`end_page`. -/
theorem crawl_termination_by_variant :
    (∀ (curr : Nat) (urls : List String),
        fullfact_loop_step curr urls = LoopStep.stop ↔ urls = []) ∧
    (∀ (curr : Nat) (urls : List String),
        rappler_fc_loop_step curr urls ≠ LoopStep.stop) ∧
    (∀ (e curr : Nat) (urls : List String),
        rappler_unified_loop_step e curr urls = LoopStep.stop ↔ curr > e) := by
  refine ⟨fun curr urls => ?_, fun curr urls => ?_, fun e curr urls => ?_⟩
  · unfold fullfact_loop_step
    split <;> simp_all [List.isEmpty_iff]
  · unfold rappler_fc_loop_step
    simp
  · unfold rappler_unified_loop_step
    split <;> simp_all

/-- Claim C3, witness: the amended theorem instantiated at page 7 of the
FullFact crawl with an empty listing. -/
theorem crawl_termination_witness :
    fullfact_loop_step 7 [] = LoopStep.stop :=
  (crawl_termination_by_variant.1 7 []).mpr rfl

/-- Claim C4, counterexample: on a page whose only claim-labelled element
is a content-div paragraph `"CLAIM: Vaccines cause X"`, the extractor
returns the text with the label still attached — the case-insensitive
`:has-text` match lets the first pattern `"Claim:"` catch the upper-case
label, and the case-sensitive `removeprefix` then strips nothing — so the
result is not the claimed `"Vaccines cause X"`. -/
theorem rappler_claim_uppercase_counterexample :
    rappler_extract_claim c4PageInContent = .ok "CLAIM: Vaccines cause X" ∧
    ("CLAIM: Vaccines cause X" : String) ≠ "Vaccines cause X" :=
  ⟨rfl, by decide⟩

/-- Claim C4, amended: the extractor tries the five label patterns in
order and strips case-sensitively, so an upper-case claim paragraph
inside the content div is caught by the `"Claim:"` pattern and returned
un-stripped; the same paragraph outside the content div falls through to
the `"CLAIM:"` pattern and is stripped to `"Vaccines cause X"`; when no
pattern matches any element the extractor fails with the extraction
error. -/
theorem rappler_extract_claim_spec :
    rappler_extract_claim c4PageInContent = .ok "CLAIM: Vaccines cause X" ∧
    rappler_extract_claim c4PageOutsideContent = .ok "Vaccines cause X" ∧
    rappler_extract_claim [] = .error "No claim element found" ∧
    (∀ page : List PageElement,
      (∀ e ∈ page, rapplerClaimSel1 e = false ∧ rapplerClaimSel2 e = false ∧
        rapplerClaimSel3 e = false ∧ rapplerClaimSel4 e = false ∧
        rapplerClaimSel5 e = false) →
      rappler_extract_claim page = .error "No claim element found") := by
  refine ⟨rfl, rfl, rfl, fun page h => ?_⟩
  unfold rappler_extract_claim
  rw [List.filter_eq_nil_iff.mpr (fun e he => by simp [(h e he).1]),
    List.filter_eq_nil_iff.mpr (fun e he => by simp [(h e he).2.1]),
    List.filter_eq_nil_iff.mpr (fun e he => by simp [(h e he).2.2.1]),
    List.filter_eq_nil_iff.mpr (fun e he => by simp [(h e he).2.2.2.1]),
    List.filter_eq_nil_iff.mpr (fun e he => by simp [(h e he).2.2.2.2])]

/-- Claim C4, witness: the no-match clause of the amended theorem applied
to a page with a single unlabelled element. -/
theorem rappler_extract_claim_witness :
    rappler_extract_claim [⟨ETag.other, false, "Just a sentence.", []⟩] =
      .error "No claim element found" :=
  rappler_extract_claim_spec.2.2.2
    [⟨ETag.other, false, "Just a sentence.", []⟩] (by decide)

/-- Claim C5, counterexample: with the `kwPre` configuration, the inputs
`("aa", "", "http://x/politics/")` are categorized as `"politics"`
although the pre-boost politics score is `0` while the pre-boost news
score is `1/5 > 0` — the argmax is taken over the post-boost scores, not
the pre-boost ones. -/
theorem pre_boost_argmax_counterexample :
    categorize_article kwPre "aa" "" "http://x/politics/" = "politics" ∧
    (base_scores kwPre "aa" "").lookup "politics" = some 0 ∧
    (base_scores kwPre "aa" "").lookup "news" = some (mkRat 1 5) ∧
    ((0 : ℚ) < mkRat 1 5) :=
  ⟨by decide, by decide, by decide, by decide⟩

/-- Claim C5, amended: `categorize_article` is a pure function of its
inputs (it is a function in this embedding); every boosted score is
non-negative; when all post-boost scores are zero the result is
`"news"`; otherwise the result is a category whose post-boost score is
greater than or equal to every other post-boost score. -/
theorem categorize_article_spec (kw : CategoryKeywords) (title content url : String) :
    (∀ p ∈ final_scores kw title content url, 0 ≤ p.2) ∧
    ((∀ p ∈ final_scores kw title content url, p.2 = 0) →
      categorize_article kw title content url = "news") ∧
    (∀ q ∈ final_scores kw title content url, q.2 ≠ 0 →
      ∃ v, (categorize_article kw title content url, v) ∈ final_scores kw title content url ∧
        ∀ p ∈ final_scores kw title content url, p.2 ≤ v) := by
  obtain ⟨A, B, C, D, heq, hA, hB, hC, hD⟩ :
      ∃ A B C D, final_scores kw title content url =
        [("politics", A), ("social_issues", B), ("news", C), ("government", D)] ∧
        0 ≤ A ∧ 0 ≤ B ∧ 0 ≤ C ∧ 0 ≤ D := by
    refine ⟨_, _, _, _, final_scores_eval kw title content url, ?_, ?_, ?_, ?_⟩
    · exact ite_qadd_nonneg _ _ _ (get_keyword_score_nonneg _ _) mkRat_3_10_nonneg
    · exact get_keyword_score_nonneg _ _
    · exact get_keyword_score_nonneg _ _
    · exact ite_qadd_nonneg _ _ _
        (ite_qadd_nonneg _ _ _ (get_keyword_score_nonneg _ _) mkRat_3_10_nonneg)
        mkRat_1_5_nonneg
  have hcat : categorize_article kw title content url =
      (if max_value [("politics", A), ("social_issues", B), ("news", C),
          ("government", D)] > 0
       then argmax_key [("politics", A), ("social_issues", B), ("news", C),
          ("government", D)]
       else "news") := by
    unfold categorize_article
    rw [heq]
  refine ⟨?_, ?_, ?_⟩
  · intro x hx
    rw [heq] at hx
    simp only [List.mem_cons, List.not_mem_nil, or_false] at hx
    rcases hx with h | h | h | h <;> rw [h]
    · exact hA
    · exact hB
    · exact hC
    · exact hD
  · intro hz
    have hA0 : A = 0 := hz ("politics", A) (by rw [heq]; simp)
    have hB0 : B = 0 := hz ("social_issues", B) (by rw [heq]; simp)
    have hC0 : C = 0 := hz ("news", C) (by rw [heq]; simp)
    have hD0 : D = 0 := hz ("government", D) (by rw [heq]; simp)
    rw [hcat, hA0, hB0, hC0, hD0]
    norm_num [max_value]
  · intro q hq hqne
    rw [heq] at hq
    obtain ⟨m1, m2, m3, m4⟩ :=
      max_value_four_ge "politics" "social_issues" "news" "government" A B C D
    have hmax : max_value [("politics", A), ("social_issues", B), ("news", C),
        ("government", D)] > 0 := by
      simp only [List.mem_cons, List.not_mem_nil, or_false] at hq
      rcases hq with h | h | h | h
      · exact lt_of_lt_of_le
          (lt_of_le_of_ne hA (by rw [h] at hqne; exact fun e => hqne e.symm)) m1
      · exact lt_of_lt_of_le
          (lt_of_le_of_ne hB (by rw [h] at hqne; exact fun e => hqne e.symm)) m2
      · exact lt_of_lt_of_le
          (lt_of_le_of_ne hC (by rw [h] at hqne; exact fun e => hqne e.symm)) m3
      · exact lt_of_lt_of_le
          (lt_of_le_of_ne hD (by rw [h] at hqne; exact fun e => hqne e.symm)) m4
    rw [heq, hcat, if_pos hmax]
    exact argmax_key_spec ("politics", A)
      [("social_issues", B), ("news", C), ("government", D)]

/-- Claim C5, witness: the amended theorem applied to the concrete
configuration `kwWit` at inputs whose politics score is `1`. -/
theorem categorize_article_spec_witness :
    ∃ v, (categorize_article kwWit "ha" "" "", v) ∈ final_scores kwWit "ha" "" "" ∧
      ∀ p ∈ final_scores kwWit "ha" "" "", p.2 ≤ v :=
  (categorize_article_spec kwWit "ha" "" "").2.2 ("politics", 1) (by decide) (by decide)

/-- Claim C6: `navigate_with_retry` raises when the session has no page;
otherwise it returns `true` right after the first successful attempt
(attempt `k` succeeding makes `k + 1 ≤ max_retries` attempts and `k`
sleeps), and when every attempt fails it makes exactly `max_retries`
attempts, sleeps between consecutive failures but not after the last, and
returns `false` instead of raising. -/
theorem navigate_with_retry_spec (pageStarted : Bool) (outcome : Nat → Bool)
    (max_retries : Nat) :
    (pageStarted = false →
      navigate_with_retry pageStarted outcome max_retries =
        .error "Unable to navigate, no page found") ∧
    (pageStarted = true →
      (∀ k, k < max_retries → outcome k = true → (∀ j, j < k → outcome j = false) →
        navigate_with_retry pageStarted outcome max_retries = .ok (true, k + 1, k)) ∧
      ((∀ j, j < max_retries → outcome j = false) →
        navigate_with_retry pageStarted outcome max_retries =
          .ok (false, max_retries, max_retries - 1))) := by
  constructor
  · intro h; subst h; rfl
  · intro h; subst h
    constructor
    · intro k hk hs hf
      unfold navigate_with_retry
      rw [if_pos rfl]
      rw [navLoop_first_success outcome k max_retries 0 0 hk (by simpa using hs)
        (fun j hj => by simpa using hf j hj)]
      simp
    · intro hf
      unfold navigate_with_retry
      rw [if_pos rfl]
      rw [navLoop_all_fail outcome max_retries 0 0 (fun j _ hj => hf j (by omega))]
      simp

/-- Claim C6, witness: three concrete runs — success on the second
attempt, all three attempts failing, and a missing page handle. -/
theorem navigate_with_retry_witness :
    navigate_with_retry true (fun n => decide (n = 1)) 3 = .ok (true, 2, 1) ∧
    navigate_with_retry true (fun _ => false) 3 = .ok (false, 3, 2) ∧
    navigate_with_retry false (fun _ => false) 3 =
      .error "Unable to navigate, no page found" := by
  refine ⟨?_, ?_, ?_⟩
  · exact ((navigate_with_retry_spec true (fun n => decide (n = 1)) 3).2 rfl).1 1
      (by omega) (by decide) (by decide)
  · exact ((navigate_with_retry_spec true (fun _ => false) 3).2 rfl).2 (fun j _ => rfl)
  · exact (navigate_with_retry_spec false (fun _ => false) 3).1 rfl

/-- Claim C7: when extraction fails for a URL, that URL contributes no
record to the output store (the outputs of a crawl through any
surrounding URLs are exactly the outputs of the other URLs), exactly one
retry entry carrying the URL and the failure detail is appended in
position, and the loop still processes the remaining URLs. -/
theorem extraction_failure_isolated (oracle : String → FetchOutcome)
    (l1 l2 : List String) (u d : String) (h : oracle u = .extractFail d) :
    (rappler_fc_process_urls oracle (l1 ++ u :: l2)).1 =
      (rappler_fc_process_urls oracle l1).1 ++ (rappler_fc_process_urls oracle l2).1 ∧
    (rappler_fc_process_urls oracle (l1 ++ u :: l2)).2 =
      (rappler_fc_process_urls oracle l1).2 ++
        ⟨u, d⟩ :: (rappler_fc_process_urls oracle l2).2 := by
  induction l1 with
  | nil =>
    simp [rappler_fc_process_urls, rappler_fc_extract_from_url, h]
  | cons a l1 ih =>
    simp only [List.cons_append, rappler_fc_process_urls, List.append_eq]
    rw [ih.1, ih.2]
    simp [List.append_assoc]

/-- Claim C7, witness: a three-URL listing whose middle URL fails
extraction. -/
theorem extraction_failure_witness :
    (rappler_fc_process_urls c7Oracle
        ["https://www.rappler.com/a", "https://www.rappler.com/b",
         "https://www.rappler.com/c"]).1 =
      (rappler_fc_process_urls c7Oracle ["https://www.rappler.com/a"]).1 ++
        (rappler_fc_process_urls c7Oracle ["https://www.rappler.com/c"]).1 ∧
    (rappler_fc_process_urls c7Oracle
        ["https://www.rappler.com/a", "https://www.rappler.com/b",
         "https://www.rappler.com/c"]).2 =
      (rappler_fc_process_urls c7Oracle ["https://www.rappler.com/a"]).2 ++
        ⟨"https://www.rappler.com/b", "Traceback: boom"⟩ ::
          (rappler_fc_process_urls c7Oracle ["https://www.rappler.com/c"]).2 :=
  extraction_failure_isolated c7Oracle ["https://www.rappler.com/a"]
    ["https://www.rappler.com/c"] "https://www.rappler.com/b" "Traceback: boom" rfl

/-- Claim C8: the append operations never raise (they are total and
return normally on both branches), a missing or unparsable document reads
back as the empty list, a successful append rewrites the document as the
read-back list with the new entry at the end — so appending two records
to an empty store yields exactly that two-record sequence — and an I/O
failure during an append is swallowed, leaving the document as it was. -/
theorem append_store_spec :
    (∀ (doc : JsonDoc RawData) (r : RawData),
        append_to_json false doc r = some (.ok (read_existing_data doc ++ [r]))) ∧
    (∀ (doc : JsonDoc RawData) (r : RawData), append_to_json true doc r = doc) ∧
    read_existing_data (none : JsonDoc RawData) = [] ∧
    read_existing_data (some (.error ()) : JsonDoc RawData) = [] ∧
    (∀ (r1 r2 : RawData),
        append_to_json false (append_to_json false (none : JsonDoc RawData) r1) r2 =
          some (.ok [r1, r2])) ∧
    (∀ (doc : JsonDoc RetryEntry) (u v : String),
        append_to_retry false doc u v = some (.ok (read_existing_data doc ++ [⟨u, v⟩]))) ∧
    (∀ (doc : JsonDoc RetryEntry) (u v : String), append_to_retry true doc u v = doc) :=
  ⟨fun _ _ => rfl, fun _ _ => rfl, rfl, rfl, fun _ _ => rfl,
   fun _ _ _ => rfl, fun _ _ _ => rfl⟩

/-- Claim C9: resolving an href that is already an absolute URL (it
begins with an URL scheme) is a no-op, and resolving a root-relative
href prepends the origin exactly once — resolving the result again
changes nothing, so the origin is never doubled. -/
theorem resolve_href_spec (origin href : String) :
    (pyStartsWith href "http://" = true ∨ pyStartsWith href "https://" = true →
      resolve_href origin href = href) ∧
    (pyStartsWith href "/" = true → pyStartsWith origin "https://" = true →
      resolve_href origin href = origin ++ href ∧
      resolve_href origin (resolve_href origin href) = origin ++ href) := by
  constructor
  · intro h
    have hslash : pyStartsWith href "/" = false := by
      unfold pyStartsWith at h ⊢
      rcases h with h | h
      · have hdata : ("http://" : String).data = 'h' :: "ttp://".data := rfl
        rw [hdata] at h
        obtain ⟨t, ht⟩ := charsPre_cons _ _ _ h
        rw [ht]; simp [charsPre]
      · have hdata : ("https://" : String).data = 'h' :: "ttps://".data := rfl
        rw [hdata] at h
        obtain ⟨t, ht⟩ := charsPre_cons _ _ _ h
        rw [ht]; simp [charsPre]
    unfold resolve_href
    rw [hslash]
    simp
  · intro h1 h2
    have e1 : resolve_href origin href = origin ++ href := by
      unfold resolve_href; rw [h1]; simp
    refine ⟨e1, ?_⟩
    rw [e1]
    unfold resolve_href
    rw [pyStartsWith_append_http origin href h2]
    simp

/-- Claim C9, witness: resolving an absolute href and a root-relative
href against the Rappler origin. -/
theorem resolve_href_witness :
    resolve_href "https://www.rappler.com" "https://example.com/x" =
      "https://example.com/x" ∧
    resolve_href "https://www.rappler.com" "/newsbreak/fact-check" =
      "https://www.rappler.com/newsbreak/fact-check" ∧
    resolve_href "https://www.rappler.com"
        (resolve_href "https://www.rappler.com" "/newsbreak/fact-check") =
      "https://www.rappler.com/newsbreak/fact-check" := by
  refine ⟨(resolve_href_spec "https://www.rappler.com" "https://example.com/x").1
      (Or.inr (by decide)), ?_, ?_⟩
  · exact ((resolve_href_spec "https://www.rappler.com" "/newsbreak/fact-check").2
      (by decide) (by decide)).1
  · exact ((resolve_href_spec "https://www.rappler.com" "/newsbreak/fact-check").2
      (by decide) (by decide)).2

/-- Claim C10: neither constructor assigns `restart_interval`, so for
every start page, listing oracle and extraction oracle, the Politifact
crawl caught an `AttributeError` in its first loop iteration: it
navigated to no listing page, persisted no record, appended no retry
entry, and still ran `quit()` on the way out. -/
theorem politifact_first_iteration_crash :
    (politifact_attr_names.contains "restart_interval") = false ∧
    (∀ (articlesOn : Nat → List String) (oracle : String → FetchOutcome)
        (startPage fuel : Nat),
      politifact_process articlesOn oracle startPage (fuel + 1) =
        { navigations := [], persisted := [], retried := [], quitCalled := true,
          caughtError := some "AttributeError: restart_interval" }) :=
  ⟨rfl, fun _ _ _ _ => rfl⟩

end Truescope
